import Mathlib

/-!
Shallow embedding of the GeneCurationAgents evidence pipeline
(`gene_disease_curation`): the evidence data model, the per-category and
total scoring functions, the classification stage, the extraction fan-out,
and the five-node curation graph, together with theorems settling the
specification claims about them.

Python floats are modelled as real numbers; Python lists as `List`;
the insertion-ordered `dict` of abstracts as an association `List`;
`set(...)` cardinalities via `List.dedup`.
-/

namespace GeneCuration

/-- `EvidenceType` from `models/evidence.py` (a closed four-value enum). -/
inductive EvidenceType where
  | variant
  | functional
  | cohort
  | segregation
deriving DecidableEq, Repr

/-- `EvidenceLevel` from `models/evidence.py`. -/
inductive EvidenceLevel where
  | strong
  | moderate
  | weak
deriving DecidableEq, Repr

/-- `AbstractEvidence` from `models/state.py`.  The `raw_data` field (the raw
oracle output echoed back for audit) is omitted: no scoring, classification or
pipeline code ever reads it. -/
structure AbstractEvidence where
  pmid : String
  evidence_type : EvidenceType
  evidence_level : EvidenceLevel
  description : String
  confidence : ℝ
  extracted_by : String
  key_terms : List String

/-- Document metadata as built by `PubMedManager.fetch_abstracts`
(`api/pubmed.py`): pmid, title, abstract text, optional year, optional
first author. -/
structure DocMeta where
  pmid : String
  title : String
  abstract : String
  year : Option ℤ
  first_author : Option String

/-- The `level_scores` map of `_calculate_type_score` (`graph/nodes.py`
lines 179-183): Strong = 3.0, Moderate = 1.5, Weak = 0.5. -/
noncomputable def level_scores : EvidenceLevel → ℝ
  | .strong => 3.0
  | .moderate => 1.5
  | .weak => 0.5

/-- `_calculate_type_score` (`graph/nodes.py` lines 173-210): sum of the
level scores, scaled by `(1 + 0.5*sqrt(n-1))/n` when there is more than one
record, then multiplied by the mean confidence; `0.0` on the empty list. -/
noncomputable def _calculate_type_score (evidence_list : List AbstractEvidence) : ℝ :=
  if evidence_list.isEmpty then 0.0
  else
    let base_score : ℝ := (evidence_list.map (fun e => level_scores e.evidence_level)).sum
    let base_score : ℝ :=
      if 1 < evidence_list.length then
        base_score * (1.0 + 0.5 * Real.sqrt ((evidence_list.length - 1 : ℕ) : ℝ))
          / (evidence_list.length : ℝ)
      else base_score
    let confidence_adjustment : ℝ :=
      (evidence_list.map (fun e => e.confidence)).sum / (evidence_list.length : ℝ)
    base_score * confidence_adjustment

/-- The weighted total of `calculate_scores` (`graph/nodes.py` lines 137-150):
Variant x1.0, Functional x0.8, Segregation x1.2, Cohort x1.5. -/
noncomputable def weighted_total (variant_score functional_score segregation_score
    cohort_score : ℝ) : ℝ :=
  variant_score * 1.0 + functional_score * 0.8 +
    segregation_score * 1.2 + cohort_score * 1.5

/-- The independent-group count of `calculate_scores` (`graph/nodes.py`
lines 152-160): the number of distinct pmids among the evidence items,
capped at 10. -/
def independent_groups_of (evidence_items : List AbstractEvidence) : ℕ :=
  min ((evidence_items.map (fun e => e.pmid)).dedup.length) 10

/-- The ordered threshold table of `classify_relationship` (`graph/nodes.py`
lines 216-222); Python dicts iterate in insertion order. -/
noncomputable def thresholds : List (String × ℝ) :=
  [("definitive", 30.0), ("strong", 15.0), ("moderate", 5.0),
   ("limited", 2.0), ("disputed", 0.0)]

open Classical in
/-- The first-match-wins scan of `classify_relationship` (`graph/nodes.py`
lines 224-228): starting from the default `"no evidence"`, take the first
level whose threshold the score reaches. -/
noncomputable def first_match (total_score : ℝ) : List (String × ℝ) → String
  | [] => "no evidence"
  | (level, threshold) :: rest =>
      if threshold ≤ total_score then level else first_match total_score rest

/-- The label computed by `classify_relationship` from the total score. -/
noncomputable def classify_label (total_score : ℝ) : String :=
  first_match total_score thresholds

/-- The confidence computed by `classify_relationship` (`graph/nodes.py`
lines 230-246): `0.5 + 0.25*min(1, distinct_types/4) + 0.25*min(1, groups/5)`,
multiplied by `(1 - year_span/100)` when the publication-year list is
non-empty. -/
noncomputable def classify_confidence (evidence_items : List AbstractEvidence)
    (independent_groups : ℕ) (publication_years : List ℤ) : ℝ :=
  let evidence_diversity : ℝ :=
    min 1.0 (((evidence_items.map (fun e => e.evidence_type)).dedup.length : ℝ) / 4.0)
  let source_diversity : ℝ := min 1.0 ((independent_groups : ℝ) / 5.0)
  let confidence_level : ℝ := 0.5 + 0.25 * evidence_diversity + 0.25 * source_diversity
  match publication_years with
  | [] => confidence_level
  | y :: ys =>
      confidence_level * (1 - (((ys.foldl max y - ys.foldl min y : ℤ) : ℝ) / 100))

/-- `CurationState` from `models/state.py`.  `processing_time` is set outside
the graph (`run_curation.py`) and carried opaquely. -/
structure CurationState where
  gene : String
  disease : String
  pmids : List String
  abstracts : List (String × DocMeta)
  evidence_items : List AbstractEvidence
  variant_score : ℝ
  functional_score : ℝ
  segregation_score : ℝ
  cohort_score : ℝ
  total_score : ℝ
  publication_years : List ℤ
  independent_groups : ℕ
  abstracts_analyzed : ℕ
  classification_suggestion : String
  confidence_level : ℝ
  current_stage : String
  errors : List String
  processing_time : ℝ
  messages : List String

/-- `create_initial_state` from `utils/helpers.py`: all numeric and collection
fields zero/empty, stage `"start"`. -/
noncomputable def create_initial_state (gene disease : String) : CurationState where
  gene := gene
  disease := disease
  pmids := []
  abstracts := []
  evidence_items := []
  variant_score := 0.0
  functional_score := 0.0
  segregation_score := 0.0
  cohort_score := 0.0
  total_score := 0.0
  publication_years := []
  independent_groups := 0
  abstracts_analyzed := 0
  classification_suggestion := ""
  confidence_level := 0.0
  current_stage := "start"
  errors := []
  processing_time := 0.0
  messages := []

/-- The `search_literature` node (`graph/nodes.py` lines 27-46), with the
literature-search collaborator's reply passed in as `search_result`.  The
LangGraph merge of the returned partial update is applied in place: plain
fields are replaced, the `Annotated`-with-`operator.add` field `messages`
is appended to. -/
noncomputable def search_literature (search_result : List String)
    (s : CurationState) : CurationState :=
  if search_result.isEmpty then
    { s with pmids := [],
             errors := ["No papers found for " ++ s.gene ++ " and " ++ s.disease],
             current_stage := "complete",
             messages := s.messages ++ ["No literature found"] }
  else
    { s with pmids := search_result,
             current_stage := "fetch_abstracts",
             messages := s.messages ++
               ["Found " ++ toString search_result.length ++ " papers"] }

/-- `PubMedManager.fetch_abstracts` (`api/pubmed.py` lines 42-105): returns the
empty map when given no pmids, otherwise defers to the network (modelled by the
uninterpreted `fetch_raw`). -/
def fetch_abstracts_api (fetch_raw : List String → List (String × DocMeta))
    (pmids : List String) : List (String × DocMeta) :=
  if pmids.isEmpty then [] else fetch_raw pmids

/-- The `fetch_abstracts` node (`graph/nodes.py` lines 48-73): stores the
fetched abstracts, the sorted list of truthy years, and the number of distinct
truthy first authors. -/
noncomputable def fetch_abstracts (fetch_raw : List String → List (String × DocMeta))
    (s : CurationState) : CurationState :=
  let abstracts := fetch_abstracts_api fetch_raw s.pmids
  let years :=
    ((abstracts.map (fun pd => pd.2.year)).filterMap id).filter (fun y => y ≠ 0)
  let authors :=
    ((abstracts.map (fun pd => pd.2.first_author)).filterMap id).filter (fun a => a ≠ "")
  { s with abstracts := abstracts,
           abstracts_analyzed := abstracts.length,
           publication_years := years.mergeSort (fun a b => a ≤ b),
           independent_groups := authors.dedup.length,
           current_stage := "extract_evidence",
           messages := s.messages ++
             ["Fetched " ++ toString abstracts.length ++ " abstracts"] }

/-- The `extract_evidence` node (`graph/nodes.py` lines 75-114), with the
per-document work of the orchestrator passed in as `extract_fn`.  The node
walks the abstracts in key order in batches of 5 and concatenates the
per-document evidence lists in that order, which is the in-order flattening
modelled here; `evidence_items` carries the `operator.add` reducer, so the
update appends. -/
noncomputable def extract_evidence (extract_fn : String → DocMeta → List AbstractEvidence)
    (s : CurationState) : CurationState :=
  let all_evidence := (s.abstracts.map (fun pd => extract_fn pd.1 pd.2)).flatten
  { s with evidence_items := s.evidence_items ++ all_evidence,
           current_stage := "calculate_scores",
           messages := s.messages ++
             ["Extracted " ++ toString all_evidence.length ++ " evidence items"] }

/-- The `calculate_scores` node (`graph/nodes.py` lines 116-171).  Grouping by
`evidence_type` into a `defaultdict` yields, for each type, exactly the
subsequence of items of that type, i.e. a `filter`.  The node's returned
`messages` value is `state["messages"] + [new]`, which the `operator.add`
reducer appends to the existing list (so the old messages are duplicated);
the numeric text formatting of the new message is elided. -/
noncomputable def calculate_scores (s : CurationState) : CurationState :=
  let variant_score :=
    _calculate_type_score (s.evidence_items.filter (fun e => e.evidence_type = .variant))
  let functional_score :=
    _calculate_type_score (s.evidence_items.filter (fun e => e.evidence_type = .functional))
  let segregation_score :=
    _calculate_type_score (s.evidence_items.filter (fun e => e.evidence_type = .segregation))
  let cohort_score :=
    _calculate_type_score (s.evidence_items.filter (fun e => e.evidence_type = .cohort))
  { s with variant_score := variant_score,
           functional_score := functional_score,
           segregation_score := segregation_score,
           cohort_score := cohort_score,
           total_score :=
             weighted_total variant_score functional_score segregation_score cohort_score,
           independent_groups := independent_groups_of s.evidence_items,
           current_stage := "classify_relationship",
           messages := s.messages ++ (s.messages ++ ["Total evidence score"]) }

/-- The `classify_relationship` node (`graph/nodes.py` lines 212-253).  As in
`calculate_scores`, the returned `messages` value is `state["messages"] +
[new]` and is appended by the reducer; the formatted text is elided. -/
noncomputable def classify_relationship (s : CurationState) : CurationState :=
  { s with classification_suggestion := classify_label s.total_score,
           confidence_level :=
             classify_confidence s.evidence_items s.independent_groups s.publication_years,
           current_stage := "complete",
           messages := s.messages ++ (s.messages ++ ["Classification"]) }

/-- `build_curation_graph` (`graph/workflow.py`): the five nodes joined by
plain (unconditional) edges `search -> fetch -> extract -> score -> classify`,
so every node runs on every invocation regardless of the `current_stage`
value a node writes. -/
noncomputable def run_curation_graph (search_result : List String)
    (fetch_raw : List String → List (String × DocMeta))
    (extract_fn : String → DocMeta → List AbstractEvidence)
    (s : CurationState) : CurationState :=
  classify_relationship (calculate_scores
    (extract_evidence extract_fn (fetch_abstracts fetch_raw
      (search_literature search_result s))))

/-- `VariantEvidence` from `models/evidence.py` (the oracle's structured reply
for the Variant category). -/
structure VariantEvidence where
  has_evidence : Bool
  evidence_level : String
  variants_found : List String
  variant_types : List String
  num_patients : Option ℤ
  inheritance_pattern : Option String
  description : String
  confidence : ℝ
  key_terms : List String

/-- `FunctionalEvidence` from `models/evidence.py`. -/
structure FunctionalEvidence where
  has_evidence : Bool
  evidence_level : String
  experiment_types : List String
  key_findings : List String
  disease_mechanism : Option String
  rescue_experiment : Bool
  description : String
  confidence : ℝ

/-- `CohortEvidence` from `models/evidence.py`. -/
structure CohortEvidence where
  has_evidence : Bool
  evidence_level : String
  cohort_size : Option ℤ
  num_families : Option ℤ
  study_type : String
  statistical_significance : Option String
  description : String
  confidence : ℝ

/-- `SegregationEvidence` from `models/evidence.py`. -/
structure SegregationEvidence where
  has_evidence : Bool
  evidence_level : String
  num_families : Option ℤ
  affected_members : Option ℤ
  inheritance_pattern : Option String
  segregation_confirmed : Bool
  description : String
  confidence : ℝ

/-- `EvidenceLevel(value.lower())` as used by every agent in
`agents/agents.py`: the string enum accepts exactly the lower-cased member
values; anything else raises (which the agent's handler turns into `None`).
`.lower()` is modelled character-wise with `Char.toLower`, which agrees with
Python on the ASCII member names being matched. -/
def parse_level (value : String) : Option EvidenceLevel :=
  match String.mk (value.data.map Char.toLower) with
  | "strong" => some .strong
  | "moderate" => some .moderate
  | "weak" => some .weak
  | _ => none

/-- `VariantEvidenceAgent.analyze` (`agents/agents.py` lines 30-64).  The
oracle call and response parse are modelled by `resp`: `Except.error` stands
for any raised failure, caught by the agent's handler which returns `None`.
`has_evidence = False` returns `None` before the record is built; an
unrecognized evidence level raises inside the record constructor and is also
caught to `None`. -/
def variant_agent_analyze (pmid : String) (resp : Except Unit VariantEvidence) :
    Option AbstractEvidence :=
  match resp with
  | .error _ => none
  | .ok result =>
    if !result.has_evidence then none
    else
      match parse_level result.evidence_level with
      | none => none
      | some lv =>
          some { pmid := pmid
                 evidence_type := .variant
                 evidence_level := lv
                 description := result.description
                 confidence := result.confidence
                 extracted_by := "VariantEvidenceAgent"
                 key_terms := result.key_terms.take 5 }

/-- `FunctionalEvidenceAgent.analyze` (`agents/agents.py` lines 89-121):
confidence is boosted by 1.2 when the rescue-experiment flag is set, and the
stored confidence is `min(1.0, confidence)` unconditionally. -/
noncomputable def functional_agent_analyze (pmid : String)
    (resp : Except Unit FunctionalEvidence) : Option AbstractEvidence :=
  match resp with
  | .error _ => none
  | .ok result =>
    if !result.has_evidence then none
    else
      match parse_level result.evidence_level with
      | none => none
      | some lv =>
          let confidence : ℝ :=
            if result.rescue_experiment then result.confidence * 1.2
            else result.confidence
          some { pmid := pmid
                 evidence_type := .functional
                 evidence_level := lv
                 description := result.description
                 confidence := min 1.0 confidence
                 extracted_by := "FunctionalEvidenceAgent"
                 key_terms := result.experiment_types.take 3 }

/-- `CohortEvidenceAgent.analyze` (`agents/agents.py` lines 146-172). -/
def cohort_agent_analyze (pmid : String) (resp : Except Unit CohortEvidence) :
    Option AbstractEvidence :=
  match resp with
  | .error _ => none
  | .ok result =>
    if !result.has_evidence then none
    else
      match parse_level result.evidence_level with
      | none => none
      | some lv =>
          some { pmid := pmid
                 evidence_type := .cohort
                 evidence_level := lv
                 description := result.description
                 confidence := result.confidence
                 extracted_by := "CohortEvidenceAgent"
                 key_terms := [result.study_type] }

/-- `SegregationEvidenceAgent.analyze` (`agents/agents.py` lines 197-223):
key terms are `[inheritance_pattern]` when that string is truthy, else the
literal `["segregation"]`. -/
def segregation_agent_analyze (pmid : String)
    (resp : Except Unit SegregationEvidence) : Option AbstractEvidence :=
  match resp with
  | .error _ => none
  | .ok result =>
    if !result.has_evidence then none
    else
      match parse_level result.evidence_level with
      | none => none
      | some lv =>
          some { pmid := pmid
                 evidence_type := .segregation
                 evidence_level := lv
                 description := result.description
                 confidence := result.confidence
                 extracted_by := "SegregationEvidenceAgent"
                 key_terms :=
                   match result.inheritance_pattern with
                   | some p => if p = "" then ["segregation"] else [p]
                   | none => ["segregation"] }

/-- `EvidenceExtractionOrchestrator.extract_all_evidence`
(`agents/orchestrator.py` lines 27-50): gather the four categorical analyses
(each already total — every agent converts its own failures to `None`, and
`asyncio.gather(..., return_exceptions=True)` plus the
`not isinstance(result, Exception)` filter would drop anything that still
escaped) and keep the non-`None` results in order. -/
noncomputable def extract_all_evidence (pmid : String)
    (rv : Except Unit VariantEvidence) (rf : Except Unit FunctionalEvidence)
    (rc : Except Unit CohortEvidence) (rs : Except Unit SegregationEvidence) :
    List AbstractEvidence :=
  [variant_agent_analyze pmid rv,
   functional_agent_analyze pmid rf,
   cohort_agent_analyze pmid rc,
   segregation_agent_analyze pmid rs].filterMap id

/-- Follows the spec's words, for comparison with the code: the
independent-group count as "the number of distinct first-author-derived source
identifiers contributing any evidence, capped at 10" (the glossary approximates
an independent group by a distinct first author), taking the first authors of
the fetched documents whose pmid contributed at least one evidence record. -/
def spec_independent_groups (abstracts : List (String × DocMeta))
    (evidence_items : List AbstractEvidence) : ℕ :=
  min (((abstracts.filter
          (fun pd => evidence_items.any (fun e => e.pmid == pd.1))).filterMap
            (fun pd => pd.2.first_author)).dedup.length) 10

/-! Concrete fixtures used to instantiate the theorems below. -/

/-- A single Strong evidence record with confidence 1. -/
noncomputable def exStrong : AbstractEvidence :=
  { pmid := "100", evidence_type := .variant, evidence_level := .strong,
    description := "strong variant", confidence := 1,
    extracted_by := "VariantEvidenceAgent", key_terms := [] }

/-- A Weak evidence record with confidence 1. -/
noncomputable def exWeak : AbstractEvidence :=
  { pmid := "101", evidence_type := .variant, evidence_level := .weak,
    description := "weak variant", confidence := 1,
    extracted_by := "VariantEvidenceAgent", key_terms := [] }

/-- A second Weak evidence record with confidence 1, from another document. -/
noncomputable def exWeak2 : AbstractEvidence :=
  { pmid := "102", evidence_type := .variant, evidence_level := .weak,
    description := "weak variant too", confidence := 1,
    extracted_by := "VariantEvidenceAgent", key_terms := [] }

/-- Two fetched documents with different pmids but the same first author. -/
def exDoc1 : DocMeta :=
  { pmid := "201", title := "t1", abstract := "a1", year := some 2001,
    first_author := some "Smith" }

/-- Second document by the same first author. -/
def exDoc2 : DocMeta :=
  { pmid := "202", title := "t2", abstract := "a2", year := some 2005,
    first_author := some "Smith" }

/-- The fetched-abstracts map holding the two same-author documents. -/
def exAbstracts : List (String × DocMeta) := [("201", exDoc1), ("202", exDoc2)]

/-- One evidence record from each of the two same-author documents. -/
noncomputable def exEvSameAuthor : List AbstractEvidence :=
  [{ pmid := "201", evidence_type := .variant, evidence_level := .strong,
     description := "", confidence := 1, extracted_by := "VariantEvidenceAgent",
     key_terms := [] },
   { pmid := "202", evidence_type := .cohort, evidence_level := .moderate,
     description := "", confidence := 1, extracted_by := "CohortEvidenceAgent",
     key_terms := [] }]

/-- A pipeline state carrying the two same-author evidence records. -/
noncomputable def stSameAuthor : CurationState :=
  { create_initial_state "G" "D" with evidence_items := exEvSameAuthor }

/-- Fifteen evidence records from fifteen distinct documents. -/
noncomputable def ev15 : List AbstractEvidence :=
  (List.range 15).map (fun i =>
    { pmid := toString i, evidence_type := .cohort, evidence_level := .weak,
      description := "", confidence := 1, extracted_by := "CohortEvidenceAgent",
      key_terms := [] })

/-- A pipeline state carrying the fifteen-document evidence list. -/
noncomputable def st15 : CurationState :=
  { create_initial_state "G" "D" with evidence_items := ev15 }

/-! Theorems settling the claims. -/

/-- C6 (claim as stated): the classification confidence equals
`0.5 + 0.25*min(1, distinct_categories/4) + 0.25*min(1, groups/5)`, multiplied
by `(1 - (max(years)-min(years))/100)` when the year list is non-empty; no
clamp follows, so a year span above 100 makes the confidence negative. -/
theorem classify_confidence_spec :
    (∀ s : CurationState,
      (classify_relationship s).confidence_level =
        classify_confidence s.evidence_items s.independent_groups
          s.publication_years) ∧
    (∀ (ev : List AbstractEvidence) (groups : ℕ),
      classify_confidence ev groups [] =
        0.5 + 0.25 * min 1.0 (((ev.map (fun e => e.evidence_type)).dedup.length : ℝ) / 4.0)
            + 0.25 * min 1.0 ((groups : ℝ) / 5.0)) ∧
    (∀ (ev : List AbstractEvidence) (groups : ℕ) (y : ℤ) (ys : List ℤ),
      classify_confidence ev groups (y :: ys) =
        classify_confidence ev groups [] *
          (1 - (((ys.foldl max y - ys.foldl min y : ℤ) : ℝ) / 100))) ∧
    (∀ (ev : List AbstractEvidence) (groups : ℕ) (y : ℤ) (ys : List ℤ),
      (100 : ℤ) < ys.foldl max y - ys.foldl min y →
      classify_confidence ev groups (y :: ys) < 0) := by
  refine ⟨fun s => rfl, fun ev groups => rfl, fun ev groups y ys => rfl,
          fun ev groups y ys h => ?_⟩
  have hA : (0 : ℝ) ≤ min 1.0 (((ev.map (fun e => e.evidence_type)).dedup.length : ℝ) / 4.0) :=
    le_min (by norm_num) (by positivity)
  have hB : (0 : ℝ) ≤ min 1.0 ((groups : ℝ) / 5.0) :=
    le_min (by norm_num) (by positivity)
  have hpos : (0 : ℝ) <
      0.5 + 0.25 * min 1.0 (((ev.map (fun e => e.evidence_type)).dedup.length : ℝ) / 4.0)
          + 0.25 * min 1.0 ((groups : ℝ) / 5.0) := by nlinarith
  have hspan : (100 : ℝ) < ((ys.foldl max y - ys.foldl min y : ℤ) : ℝ) := by
    exact_mod_cast h
  have hneg : (1 : ℝ) - (((ys.foldl max y - ys.foldl min y : ℤ) : ℝ) / 100) < 0 := by
    linarith
  calc classify_confidence ev groups (y :: ys)
      = classify_confidence ev groups [] *
          (1 - (((ys.foldl max y - ys.foldl min y : ℤ) : ℝ) / 100)) := rfl
    _ < 0 := mul_neg_of_pos_of_neg hpos hneg

/-- Witness for C6: the empty evidence list, zero groups, and years
`[0, 200]` (span 200 > 100) yield a negative confidence. -/
theorem classify_confidence_spec_witness :
    ((100 : ℤ) < ([(200 : ℤ)].foldl max 0 - [(200 : ℤ)].foldl min 0)) ∧
    classify_confidence [] 0 [0, 200] < 0 :=
  ⟨by decide, classify_confidence_spec.2.2.2 [] 0 0 [200] (by decide)⟩

/-- C2 counterexample: two documents with distinct pmids but the same first
author both contribute evidence; the scoring stage reports 2 independent
groups while the number of distinct first-author-derived sources contributing
evidence is 1. -/
theorem independent_groups_counterexample :
    (calculate_scores stSameAuthor).independent_groups = 2 ∧
    spec_independent_groups exAbstracts exEvSameAuthor = 1 ∧
    (calculate_scores stSameAuthor).independent_groups ≠
      spec_independent_groups exAbstracts exEvSameAuthor := by
  refine ⟨by decide, by decide, by decide⟩

/-- C2 amended: the independent-group count produced by the scoring stage is
the number of distinct document identifiers (pmids) contributing any evidence,
capped at 10; it never exceeds 10, and any evidence list drawing on at least
10 distinct documents (e.g. 15) yields exactly 10. -/
theorem independent_groups_amended :
    ∀ s : CurationState,
      (calculate_scores s).independent_groups =
        min ((s.evidence_items.map (fun e => e.pmid)).dedup.length) 10 ∧
      (calculate_scores s).independent_groups ≤ 10 ∧
      (10 ≤ (s.evidence_items.map (fun e => e.pmid)).dedup.length →
        (calculate_scores s).independent_groups = 10) := by
  intro s
  refine ⟨rfl, min_le_right _ _, fun h => ?_⟩
  show independent_groups_of s.evidence_items = 10
  unfold independent_groups_of
  omega

/-- Witness for C2's amended claim: fifteen distinct contributing documents
give an independent-group count of exactly 10. -/
theorem independent_groups_amended_witness :
    10 ≤ (st15.evidence_items.map (fun e => e.pmid)).dedup.length ∧
    (calculate_scores st15).independent_groups = 10 :=
  ⟨by decide, (independent_groups_amended st15).2.2 (by decide)⟩

/-- C3: for every non-empty single-category evidence list,
`_calculate_type_score` returns the sum of the strength values
(Strong = 3.0, Moderate = 1.5, Weak = 0.5), multiplied when the count
exceeds one by `(1 + 0.5*sqrt(count-1))/count`, then multiplied by the mean
confidence; the empty list yields 0.0; in particular one Strong record with
confidence 1.0 scores 3.0 and two Weak records with confidence 1.0 score
0.75. -/
theorem calculate_type_score_spec :
    (∀ l : List AbstractEvidence, l ≠ [] →
      _calculate_type_score l =
        (if 1 < l.length then
          (l.map (fun e => level_scores e.evidence_level)).sum *
            (1.0 + 0.5 * Real.sqrt ((l.length - 1 : ℕ) : ℝ)) / (l.length : ℝ)
         else (l.map (fun e => level_scores e.evidence_level)).sum) *
        ((l.map (fun e => e.confidence)).sum / (l.length : ℝ))) ∧
    _calculate_type_score [] = 0.0 ∧
    level_scores .strong = 3.0 ∧ level_scores .moderate = 1.5 ∧
    level_scores .weak = 0.5 ∧
    (∀ e : AbstractEvidence, e.evidence_level = .strong → e.confidence = 1 →
      _calculate_type_score [e] = 3.0) ∧
    (∀ e₁ e₂ : AbstractEvidence, e₁.evidence_level = .weak →
      e₂.evidence_level = .weak → e₁.confidence = 1 → e₂.confidence = 1 →
      _calculate_type_score [e₁, e₂] = 0.75) := by
  refine ⟨?_, by norm_num [_calculate_type_score], rfl, rfl, rfl, ?_, ?_⟩
  · intro l hl
    unfold _calculate_type_score
    rw [if_neg (by simpa [List.isEmpty_iff] using hl)]
  · intro e hlv hc
    norm_num [_calculate_type_score, hlv, hc, level_scores]
  · intro e₁ e₂ hlv₁ hlv₂ hc₁ hc₂
    norm_num [_calculate_type_score, hlv₁, hlv₂, hc₁, hc₂, level_scores,
      Real.sqrt_one]

/-- Witness for C3: the two concrete scores from the claim, at concrete
records. -/
theorem calculate_type_score_spec_witness :
    _calculate_type_score [exStrong] = 3.0 ∧
    _calculate_type_score [exWeak, exWeak2] = 0.75 :=
  ⟨calculate_type_score_spec.2.2.2.2.2.1 exStrong rfl rfl,
   calculate_type_score_spec.2.2.2.2.2.2 exWeak exWeak2 rfl rfl rfl rfl⟩

/-- C4: the classification label is chosen by descending threshold with first
match winning, in the fixed order Definitive >= 30.0, Strong >= 15.0,
Moderate >= 5.0, Limited >= 2.0, Disputed >= 0.0, and "no evidence" only below
0; boundaries are inclusive at the low end, so 30.0 classifies as
"definitive" and 29.999 as "strong". -/
theorem classify_label_thresholds :
    (∀ s : CurationState,
      (classify_relationship s).classification_suggestion =
        classify_label s.total_score) ∧
    (∀ t : ℝ,
      (30.0 ≤ t → classify_label t = "definitive") ∧
      (15.0 ≤ t → t < 30.0 → classify_label t = "strong") ∧
      (5.0 ≤ t → t < 15.0 → classify_label t = "moderate") ∧
      (2.0 ≤ t → t < 5.0 → classify_label t = "limited") ∧
      (0 ≤ t → t < 2.0 → classify_label t = "disputed") ∧
      (t < 0 → classify_label t = "no evidence")) := by
  refine ⟨fun s => rfl, fun t => ⟨?_, ?_, ?_, ?_, ?_, ?_⟩⟩ <;>
    (intro h1
     try intro h2) <;>
    (simp only [classify_label, thresholds, first_match]
     split_ifs <;> first | rfl | (exfalso; norm_num at *; linarith))

/-- Witness for C4: the boundary scores 30.0 and 29.999 from the claim. -/
theorem classify_label_thresholds_witness :
    classify_label 30.0 = "definitive" ∧ classify_label 29.999 = "strong" :=
  ⟨(classify_label_thresholds.2 30.0).1 (by norm_num),
   (classify_label_thresholds.2 29.999).2.1 (by norm_num) (by norm_num)⟩

/-- C5: the total score is exactly the fixed-weight combination
1.0*variant + 0.8*functional + 1.2*segregation + 1.5*cohort of the four
per-category scores, so changing only the cohort score by d changes the total
by exactly 1.5*d. -/
theorem total_score_weighted :
    (∀ s : CurationState,
      (calculate_scores s).total_score =
        1.0 * (calculate_scores s).variant_score +
        0.8 * (calculate_scores s).functional_score +
        1.2 * (calculate_scores s).segregation_score +
        1.5 * (calculate_scores s).cohort_score) ∧
    (∀ v f sg c : ℝ,
      weighted_total v f sg c = 1.0 * v + 0.8 * f + 1.2 * sg + 1.5 * c) ∧
    (∀ v f sg c d : ℝ,
      weighted_total v f sg (c + d) - weighted_total v f sg c = 1.5 * d) := by
  refine ⟨?_, ?_, ?_⟩
  · intro s
    simp only [calculate_scores, weighted_total]
    ring
  · intro v f sg c
    simp only [weighted_total]; ring
  · intro v f sg c d
    simp only [weighted_total]; ring

/-- Shared evaluation fact: the empty category scores 0. -/
theorem type_score_nil : _calculate_type_score [] = 0 := by
  norm_num [_calculate_type_score]

/-- Shared evaluation fact: the weighted total of four zero scores is 0. -/
theorem weighted_total_zero : weighted_total 0 0 0 0 = 0 := by
  norm_num [weighted_total]

/-- C1: when the literature search returns zero identifiers, the compiled
graph still runs fetch, extract, score, and classify — `build_curation_graph`
wires only unconditional edges, so the `current_stage = "complete"` written by
the search node never short-circuits routing — and the final state has total
score 0.0, no evidence items, a non-empty error list, but classification
`"disputed"` (because `0.0 >= 0.0` matches the disputed threshold), not the
claimed `"no evidence"`. -/
theorem empty_search_final_state :
    ∀ (fetch_raw : List String → List (String × DocMeta))
      (extract_fn : String → DocMeta → List AbstractEvidence),
      (run_curation_graph [] fetch_raw extract_fn
        (create_initial_state "BRCA1" "breast cancer")).total_score = 0.0 ∧
      (run_curation_graph [] fetch_raw extract_fn
        (create_initial_state "BRCA1" "breast cancer")).evidence_items = [] ∧
      (run_curation_graph [] fetch_raw extract_fn
        (create_initial_state "BRCA1" "breast cancer")).errors =
          ["No papers found for BRCA1 and breast cancer"] ∧
      (run_curation_graph [] fetch_raw extract_fn
        (create_initial_state "BRCA1" "breast cancer")).errors ≠ [] ∧
      (run_curation_graph [] fetch_raw extract_fn
        (create_initial_state "BRCA1" "breast cancer")).classification_suggestion =
          "disputed" ∧
      (run_curation_graph [] fetch_raw extract_fn
        (create_initial_state "BRCA1" "breast cancer")).classification_suggestion ≠
          "no evidence" := by
  intro fetch_raw extract_fn
  have htot : (run_curation_graph [] fetch_raw extract_fn
      (create_initial_state "BRCA1" "breast cancer")).total_score =
      weighted_total (_calculate_type_score []) (_calculate_type_score [])
        (_calculate_type_score []) (_calculate_type_score []) := rfl
  have htot0 : (run_curation_graph [] fetch_raw extract_fn
      (create_initial_state "BRCA1" "breast cancer")).total_score = 0 := by
    rw [htot, type_score_nil, weighted_total_zero]
  have hcls : (run_curation_graph [] fetch_raw extract_fn
      (create_initial_state "BRCA1" "breast cancer")).classification_suggestion =
      classify_label (weighted_total (_calculate_type_score [])
        (_calculate_type_score []) (_calculate_type_score [])
        (_calculate_type_score [])) := rfl
  have hcls' : (run_curation_graph [] fetch_raw extract_fn
      (create_initial_state "BRCA1" "breast cancer")).classification_suggestion =
      "disputed" := by
    rw [hcls, type_score_nil, weighted_total_zero]
    norm_num [classify_label, thresholds, first_match]
  have herr : (run_curation_graph [] fetch_raw extract_fn
      (create_initial_state "BRCA1" "breast cancer")).errors =
      ["No papers found for BRCA1 and breast cancer"] := rfl
  refine ⟨by rw [htot0]; norm_num, rfl, herr, by rw [herr]; simp, hcls', ?_⟩
  rw [hcls']
  decide

/-- Shared helper: `_calculate_type_score` only depends on the multiset of
records, so it is invariant under permutation. -/
theorem type_score_perm {l₁ l₂ : List AbstractEvidence} (h : l₁.Perm l₂) :
    _calculate_type_score l₁ = _calculate_type_score l₂ := by
  rcases eq_or_ne l₁ [] with rfl | hne
  · rw [h.symm.eq_nil]
  · have hne2 : l₂ ≠ [] := by
      intro he
      exact hne (by simpa [he] using h)
    unfold _calculate_type_score
    rw [if_neg (by simpa [List.isEmpty_iff] using hne),
        if_neg (by simpa [List.isEmpty_iff] using hne2),
        h.length_eq, (h.map (fun e => level_scores e.evidence_level)).sum_eq,
        (h.map (fun e => e.confidence)).sum_eq]

/-- C9: the scoring stage is insensitive to the order of the collected
evidence records: states whose evidence lists are permutations of each other
get identical per-category scores, total score, and independent-group
count. -/
theorem scoring_order_insensitive :
    ∀ (s : CurationState) (l : List AbstractEvidence),
      s.evidence_items.Perm l →
      (calculate_scores { s with evidence_items := l }).variant_score =
        (calculate_scores s).variant_score ∧
      (calculate_scores { s with evidence_items := l }).functional_score =
        (calculate_scores s).functional_score ∧
      (calculate_scores { s with evidence_items := l }).segregation_score =
        (calculate_scores s).segregation_score ∧
      (calculate_scores { s with evidence_items := l }).cohort_score =
        (calculate_scores s).cohort_score ∧
      (calculate_scores { s with evidence_items := l }).total_score =
        (calculate_scores s).total_score ∧
      (calculate_scores { s with evidence_items := l }).independent_groups =
        (calculate_scores s).independent_groups := by
  intro s l h
  have hv := type_score_perm ((h.filter (fun e => e.evidence_type = .variant)).symm)
  have hf := type_score_perm ((h.filter (fun e => e.evidence_type = .functional)).symm)
  have hsg := type_score_perm ((h.filter (fun e => e.evidence_type = .segregation)).symm)
  have hc := type_score_perm ((h.filter (fun e => e.evidence_type = .cohort)).symm)
  have hg : independent_groups_of l = independent_groups_of s.evidence_items := by
    unfold independent_groups_of
    rw [((h.map (fun e => e.pmid)).dedup).symm.length_eq]
  refine ⟨hv, hf, hsg, hc, ?_, hg⟩
  show weighted_total _ _ _ _ = weighted_total _ _ _ _
  rw [hv, hf, hsg, hc]

/-- Witness for C9: swapping two concrete evidence records leaves the total
score and the independent-group count unchanged. -/
theorem scoring_order_insensitive_witness :
    (calculate_scores { stSameAuthor with
        evidence_items := exEvSameAuthor.reverse }).total_score =
      (calculate_scores stSameAuthor).total_score ∧
    (calculate_scores { stSameAuthor with
        evidence_items := exEvSameAuthor.reverse }).independent_groups =
      (calculate_scores stSameAuthor).independent_groups :=
  ⟨(scoring_order_insensitive stSameAuthor exEvSameAuthor.reverse
      (List.reverse_perm _).symm).2.2.2.2.1,
   (scoring_order_insensitive stSameAuthor exEvSameAuthor.reverse
      (List.reverse_perm _).symm).2.2.2.2.2⟩

/-- Shared helper: every strength maps to a non-negative base score. -/
theorem level_scores_nonneg (lv : EvidenceLevel) : 0 ≤ level_scores lv := by
  cases lv <;> norm_num [level_scores]

/-- Shared helper: the non-empty branch of `_calculate_type_score`. -/
theorem type_score_eq {l : List AbstractEvidence} (hne : l ≠ []) :
    _calculate_type_score l =
      (if 1 < l.length then
        (l.map (fun e => level_scores e.evidence_level)).sum *
          (1.0 + 0.5 * Real.sqrt ((l.length - 1 : ℕ) : ℝ)) / (l.length : ℝ)
       else (l.map (fun e => level_scores e.evidence_level)).sum) *
      ((l.map (fun e => e.confidence)).sum / (l.length : ℝ)) := by
  unfold _calculate_type_score
  rw [if_neg (by simpa [List.isEmpty_iff] using hne)]

/-- Shared helper: the pointwise relation used for monotonicity — equal
strengths, no-smaller confidences. -/
def ConfLe (a b : AbstractEvidence) : Prop :=
  a.evidence_level = b.evidence_level ∧ a.confidence ≤ b.confidence

/-- Shared helper: related lists have equal base-score sums. -/
theorem forall2_level_sum {l₁ l₂ : List AbstractEvidence}
    (h : List.Forall₂ ConfLe l₁ l₂) :
    (l₁.map (fun e => level_scores e.evidence_level)).sum =
      (l₂.map (fun e => level_scores e.evidence_level)).sum := by
  induction h with
  | nil => rfl
  | cons hab _ ih => simp only [List.map_cons, List.sum_cons, hab.1, ih]

/-- Shared helper: related lists have ordered confidence sums. -/
theorem forall2_conf_sum {l₁ l₂ : List AbstractEvidence}
    (h : List.Forall₂ ConfLe l₁ l₂) :
    (l₁.map (fun e => e.confidence)).sum ≤ (l₂.map (fun e => e.confidence)).sum := by
  induction h with
  | nil => exact le_refl _
  | cons hab _ ih => simpa using add_le_add hab.2 ih

/-- Shared helper: pointwise raising confidences (with strengths and length
fixed) never lowers the category score. -/
theorem type_score_mono_forall2 {l₁ l₂ : List AbstractEvidence}
    (h : List.Forall₂ ConfLe l₁ l₂) :
    _calculate_type_score l₁ ≤ _calculate_type_score l₂ := by
  have hlen : l₁.length = l₂.length := h.length_eq
  have hlev := forall2_level_sum h
  have hconf := forall2_conf_sum h
  rcases eq_or_ne l₁ [] with rfl | hne
  · cases h
    exact le_refl _
  · have hne2 : l₂ ≠ [] := by
      intro he
      subst he
      cases h
      exact hne rfl
    have hS : 0 ≤ (l₂.map (fun e => level_scores e.evidence_level)).sum := by
      apply List.sum_nonneg
      intro x hx
      obtain ⟨e, _, rfl⟩ := List.mem_map.mp hx
      exact level_scores_nonneg _
    have hn : (0 : ℝ) < (l₂.length : ℝ) := by
      exact_mod_cast List.length_pos.mpr hne2
    rw [type_score_eq hne, type_score_eq hne2, hlen, hlev]
    refine mul_le_mul_of_nonneg_left ((div_le_div_iff_of_pos_right hn).mpr hconf) ?_
    split_ifs
    · exact div_nonneg (mul_nonneg hS (by positivity)) (le_of_lt hn)
    · exact hS

/-- Shared helper: any evidence list is `ConfLe`-related to itself. -/
theorem forall2_conf_le_rfl (l : List AbstractEvidence) :
    List.Forall₂ ConfLe l l := by
  induction l with
  | nil => exact List.Forall₂.nil
  | cons a t ih => exact List.Forall₂.cons ⟨rfl, le_refl _⟩ ih

/-- Shared helper: replacing the record at index `i` by one with the same
strength and a no-smaller confidence relates the lists pointwise. -/
theorem forall2_set (l : List AbstractEvidence) :
    ∀ (i : ℕ) (hi : i < l.length) (e' : AbstractEvidence),
      (l.get ⟨i, hi⟩).evidence_level = e'.evidence_level →
      (l.get ⟨i, hi⟩).confidence ≤ e'.confidence →
      List.Forall₂ ConfLe l (l.set i e') := by
  induction l with
  | nil =>
    intro i hi
    exact absurd hi (by simp)
  | cons a t ih =>
    intro i hi e' h1 h2
    cases i with
    | zero => exact List.Forall₂.cons ⟨h1, h2⟩ (forall2_conf_le_rfl t)
    | succ j =>
      exact List.Forall₂.cons ⟨rfl, le_refl _⟩
        (ih j (Nat.succ_lt_succ_iff.mp hi) e' h1 h2)

/-- C8: for every non-empty single-category evidence list,
`_calculate_type_score` is monotonically non-decreasing in any individual
record's confidence, the record strengths and the list length held fixed:
raising one record's confidence never lowers the category score. -/
theorem type_score_confidence_monotone :
    ∀ (l : List AbstractEvidence) (i : ℕ) (hi : i < l.length) (c : ℝ),
      (l.get ⟨i, hi⟩).confidence ≤ c →
      _calculate_type_score l ≤
        _calculate_type_score (l.set i { l.get ⟨i, hi⟩ with confidence := c }) := by
  intro l i hi c hc
  exact type_score_mono_forall2 (forall2_set l i hi _ rfl hc)

/-- A Moderate record with confidence 0.5, used to exercise monotonicity. -/
noncomputable def exHalf : AbstractEvidence :=
  { pmid := "300", evidence_type := .functional, evidence_level := .moderate,
    description := "", confidence := 0.5,
    extracted_by := "FunctionalEvidenceAgent", key_terms := [] }

/-- Witness for C8: raising the confidence of the only record of a singleton
list from 0.5 to 1 does not lower the category score. -/
theorem type_score_confidence_monotone_witness :
    ([exHalf].get ⟨0, by norm_num⟩).confidence ≤ 1 ∧
    _calculate_type_score [exHalf] ≤
      _calculate_type_score ([exHalf].set 0
        { [exHalf].get ⟨0, by norm_num⟩ with confidence := 1 }) :=
  ⟨by norm_num [exHalf],
   type_score_confidence_monotone [exHalf] 0 (by norm_num) 1
     (by norm_num [exHalf])⟩

/-- Shared helper: the variant agent only ever emits variant records. -/
theorem variant_analyze_type {pmid : String} {rv : Except Unit VariantEvidence}
    {e : AbstractEvidence} (h : variant_agent_analyze pmid rv = some e) :
    e.evidence_type = .variant := by
  rcases rv with u | result
  · simp [variant_agent_analyze] at h
  · rcases hb : result.has_evidence with _ | _ <;>
      rcases hp : parse_level result.evidence_level with _ | lv <;>
      simp [variant_agent_analyze, hb, hp] at h <;>
      simp [← h]

/-- Shared helper: the functional agent only ever emits functional records. -/
theorem functional_analyze_type {pmid : String}
    {rf : Except Unit FunctionalEvidence} {e : AbstractEvidence}
    (h : functional_agent_analyze pmid rf = some e) :
    e.evidence_type = .functional := by
  rcases rf with u | result
  · simp [functional_agent_analyze] at h
  · rcases hb : result.has_evidence with _ | _ <;>
      rcases hp : parse_level result.evidence_level with _ | lv <;>
      simp [functional_agent_analyze, hb, hp] at h <;>
      simp [← h]

/-- Shared helper: the cohort agent only ever emits cohort records. -/
theorem cohort_analyze_type {pmid : String} {rc : Except Unit CohortEvidence}
    {e : AbstractEvidence} (h : cohort_agent_analyze pmid rc = some e) :
    e.evidence_type = .cohort := by
  rcases rc with u | result
  · simp [cohort_agent_analyze] at h
  · rcases hb : result.has_evidence with _ | _ <;>
      rcases hp : parse_level result.evidence_level with _ | lv <;>
      simp [cohort_agent_analyze, hb, hp] at h <;>
      simp [← h]

/-- Shared helper: the segregation agent only ever emits segregation
records. -/
theorem segregation_analyze_type {pmid : String}
    {rs : Except Unit SegregationEvidence} {e : AbstractEvidence}
    (h : segregation_agent_analyze pmid rs = some e) :
    e.evidence_type = .segregation := by
  rcases rs with u | result
  · simp [segregation_agent_analyze] at h
  · rcases hb : result.has_evidence with _ | _ <;>
      rcases hp : parse_level result.evidence_level with _ | lv <;>
      simp [segregation_agent_analyze, hb, hp] at h <;>
      simp [← h]

/-- Shared helper: a four-slot gather in which each slot can only produce its
own category yields at most one record per category. -/
theorem filter_type_count (o1 o2 o3 o4 : Option AbstractEvidence)
    (h1 : ∀ e, o1 = some e → e.evidence_type = .variant)
    (h2 : ∀ e, o2 = some e → e.evidence_type = .functional)
    (h3 : ∀ e, o3 = some e → e.evidence_type = .cohort)
    (h4 : ∀ e, o4 = some e → e.evidence_type = .segregation)
    (t : EvidenceType) :
    (([o1, o2, o3, o4].filterMap id).filter
      (fun e => e.evidence_type = t)).length ≤ 1 := by
  rcases o1 with _ | e1 <;> rcases o2 with _ | e2 <;>
    rcases o3 with _ | e3 <;> rcases o4 with _ | e4 <;>
    (try have k1 : e1.evidence_type = .variant := h1 e1 rfl) <;>
    (try have k2 : e2.evidence_type = .functional := h2 e2 rfl) <;>
    (try have k3 : e3.evidence_type = .cohort := h3 e3 rfl) <;>
    (try have k4 : e4.evidence_type = .segregation := h4 e4 rfl) <;>
    cases t <;>
    simp_all [List.filterMap_cons, List.filterMap_nil, List.filter]

/-- C7: the per-document fan-out returns at most 4 records and at most one
per category; its members are exactly the non-absent categorical results, so
an extractor that fails (modelled by `Except.error`, which every agent maps
to `none`) contributes nothing while the other categories' records still
appear, and no failure propagates out of `extract_all_evidence`. -/
theorem extract_fanout_isolation :
    ∀ (pmid : String) (rv : Except Unit VariantEvidence)
      (rf : Except Unit FunctionalEvidence) (rc : Except Unit CohortEvidence)
      (rs : Except Unit SegregationEvidence),
      (extract_all_evidence pmid rv rf rc rs).length ≤ 4 ∧
      (∀ t : EvidenceType,
        ((extract_all_evidence pmid rv rf rc rs).filter
          (fun e => e.evidence_type = t)).length ≤ 1) ∧
      (∀ e : AbstractEvidence,
        e ∈ extract_all_evidence pmid rv rf rc rs ↔
          (variant_agent_analyze pmid rv = some e ∨
           functional_agent_analyze pmid rf = some e ∨
           cohort_agent_analyze pmid rc = some e ∨
           segregation_agent_analyze pmid rs = some e)) ∧
      variant_agent_analyze pmid (Except.error ()) = none ∧
      functional_agent_analyze pmid (Except.error ()) = none ∧
      cohort_agent_analyze pmid (Except.error ()) = none ∧
      segregation_agent_analyze pmid (Except.error ()) = none := by
  intro pmid rv rf rc rs
  refine ⟨?_, ?_, ?_, rfl, rfl, rfl, rfl⟩
  · exact le_trans (List.length_filterMap_le _ _) (by norm_num)
  · intro t
    exact filter_type_count _ _ _ _
      (fun e he => variant_analyze_type he)
      (fun e he => functional_analyze_type he)
      (fun e he => cohort_analyze_type he)
      (fun e he => segregation_analyze_type he) t
  · intro e
    simp only [extract_all_evidence, List.mem_filterMap, List.mem_cons,
      List.not_mem_nil, or_false, id]
    constructor
    · rintro ⟨a, ha, hae⟩
      rcases ha with rfl | rfl | rfl | rfl
      · exact Or.inl hae
      · exact Or.inr (Or.inl hae)
      · exact Or.inr (Or.inr (Or.inl hae))
      · exact Or.inr (Or.inr (Or.inr hae))
    · rintro (h | h | h | h)
      · exact ⟨_, Or.inl rfl, h⟩
      · exact ⟨_, Or.inr (Or.inl rfl), h⟩
      · exact ⟨_, Or.inr (Or.inr (Or.inl rfl)), h⟩
      · exact ⟨_, Or.inr (Or.inr (Or.inr rfl)), h⟩

/-- C10: every record the Functional extractor emits has confidence at most
1.0 — the upper clamp `min(1.0, confidence)` is applied unconditionally, even
with the rescue flag false and an oracle confidence above 1.0 — whereas the
Variant, Cohort, and Segregation extractors pass the oracle's confidence
through with no clamp at all. -/
theorem functional_confidence_clamped :
    (∀ (pmid : String) (r : Except Unit FunctionalEvidence) (e : AbstractEvidence),
      functional_agent_analyze pmid r = some e → e.confidence ≤ 1) ∧
    (∀ (pmid : String) (resp : FunctionalEvidence) (e : AbstractEvidence),
      resp.rescue_experiment = false →
      functional_agent_analyze pmid (Except.ok resp) = some e →
      e.confidence = min 1.0 resp.confidence) ∧
    (∀ (pmid : String) (resp : VariantEvidence) (e : AbstractEvidence),
      variant_agent_analyze pmid (Except.ok resp) = some e →
      e.confidence = resp.confidence) ∧
    (∀ (pmid : String) (resp : CohortEvidence) (e : AbstractEvidence),
      cohort_agent_analyze pmid (Except.ok resp) = some e →
      e.confidence = resp.confidence) ∧
    (∀ (pmid : String) (resp : SegregationEvidence) (e : AbstractEvidence),
      segregation_agent_analyze pmid (Except.ok resp) = some e →
      e.confidence = resp.confidence) := by
  refine ⟨?_, ?_, ?_, ?_, ?_⟩
  · intro pmid r e h
    rcases r with u | result
    · simp [functional_agent_analyze] at h
    · rcases hb : result.has_evidence with _ | _ <;>
        rcases hp : parse_level result.evidence_level with _ | lv <;>
        simp [functional_agent_analyze, hb, hp] at h <;>
        rw [← h] <;>
        exact le_trans (min_le_left _ _) (by norm_num)
  · intro pmid resp e hresc h
    rcases hb : resp.has_evidence with _ | _ <;>
      rcases hp : parse_level resp.evidence_level with _ | lv <;>
      simp [functional_agent_analyze, hb, hp] at h <;>
      rw [← h] <;>
      simp [hresc]
  · intro pmid resp e h
    rcases hb : resp.has_evidence with _ | _ <;>
      rcases hp : parse_level resp.evidence_level with _ | lv <;>
      simp [variant_agent_analyze, hb, hp] at h <;>
      rw [← h]
  · intro pmid resp e h
    rcases hb : resp.has_evidence with _ | _ <;>
      rcases hp : parse_level resp.evidence_level with _ | lv <;>
      simp [cohort_agent_analyze, hb, hp] at h <;>
      rw [← h]
  · intro pmid resp e h
    rcases hb : resp.has_evidence with _ | _ <;>
      rcases hp : parse_level resp.evidence_level with _ | lv <;>
      simp [segregation_agent_analyze, hb, hp] at h <;>
      rw [← h]

/-- A functional oracle reply with evidence present, rescue flag false, and
confidence 2.0 (above 1.0), echoing the debug trace recorded in the source. -/
noncomputable def respFun : FunctionalEvidence :=
  { has_evidence := true, evidence_level := "WEAK", experiment_types := [],
    key_findings := [], disease_mechanism := none, rescue_experiment := false,
    description := "d", confidence := 2 }

/-- The record the functional extractor builds from `respFun`. -/
noncomputable def funRecord : AbstractEvidence :=
  { pmid := "1", evidence_type := .functional, evidence_level := .weak,
    description := "d", confidence := min 1.0 respFun.confidence,
    extracted_by := "FunctionalEvidenceAgent", key_terms := [] }

/-- A variant oracle reply with evidence present and confidence 2.0. -/
noncomputable def respVar : VariantEvidence :=
  { has_evidence := true, evidence_level := "WEAK", variants_found := [],
    variant_types := [], num_patients := none, inheritance_pattern := none,
    description := "v", confidence := 2, key_terms := [] }

/-- The record the variant extractor builds from `respVar`. -/
noncomputable def varRecord : AbstractEvidence :=
  { pmid := "2", evidence_type := .variant, evidence_level := .weak,
    description := "v", confidence := respVar.confidence,
    extracted_by := "VariantEvidenceAgent", key_terms := [] }

/-- Witness for C10: on a concrete reply with confidence 2.0 and no rescue
experiment the functional extractor stores a confidence at most 1, while the
variant extractor passes the same confidence 2.0 straight through. -/
theorem functional_confidence_clamped_witness :
    functional_agent_analyze "1" (Except.ok respFun) = some funRecord ∧
    funRecord.confidence ≤ 1 ∧
    variant_agent_analyze "2" (Except.ok respVar) = some varRecord ∧
    varRecord.confidence = respVar.confidence ∧
    (1 : ℝ) < varRecord.confidence := by
  have h1 : functional_agent_analyze "1" (Except.ok respFun) = some funRecord := by
    show some _ = some _
    norm_num [respFun, funRecord]
  have h2 : variant_agent_analyze "2" (Except.ok respVar) = some varRecord := by
    show some _ = some _
    norm_num [respVar, varRecord]
  refine ⟨h1, functional_confidence_clamped.1 "1" (Except.ok respFun) funRecord h1,
          h2, functional_confidence_clamped.2.2.1 "2" respVar varRecord h2, ?_⟩
  have : varRecord.confidence = (2 : ℝ) := rfl
  rw [this]
  norm_num

end GeneCuration
